import Mathlib

/-
Verification development for the 2GIS search MCP server.

The embedding models the request-construction and validation core:
  * `DGisSearchAPI` (src/dgis_search_mcp.py): the upstream client holding the
    static credentials; `_build_params` filters `None` values; one request
    builder per capability (place, geocoder, suggest, categories, regions,
    markers), each appending the static API key and targeting a fixed path.
  * The tool facade functions (`place_tool`, `geocoder_tool`, ...), which log
    and delegate positionally to the client operations.
  * `GeocoderParams` (src/models.py): the validated geocode parameter model
    with the query-or-coordinates rule and the derived `location` field.

Python floats appear in the model through their default decimal string form
(the form Python interpolates into f-strings): the validation logic inspects
only presence/absence of the coordinates, never their numeric value, so a
coordinate is carried as the string Python would render for it.  Python `None`
is `Option.none`; a params dict is an ordered association list.  Log strings
follow the source f-strings, with Python's quote characters around
interpolated values elided.
-/

set_option autoImplicit false

namespace DGis

/-- A query-parameter value: the source puts strings and ints into the params
dict (`q=query`, `radius=radius`, ...). -/
inductive PVal where
  | s : String → PVal
  | i : Int → PVal
deriving DecidableEq, Repr

/-- An outgoing HTTP GET request: target URL and ordered query-parameter set,
as assembled by each client operation before calling `httpx.get`. -/
structure HttpRequest where
  url : String
  params : List (String × PVal)
deriving DecidableEq, Repr

/-- `DGisSearchAPI._build_params`: build a params dict, filtering out `None`
values (`{k: v for k, v in kwargs.items() if v is not None}`). -/
def build_params (kwargs : List (String × Option PVal)) : List (String × PVal) :=
  kwargs.filterMap (fun kv => kv.2.map (fun v => (kv.1, v)))

/-- The 2GIS API client state: set once in `__init__` from the static
settings (`DGIS_API_KEY`, `DGIS_SEARCH_API_URL`) and never reassigned. -/
structure DGisSearchAPI where
  api_key : String
  url : String
deriving DecidableEq, Repr

/-- `DGisSearchAPI.place_api` request construction: params
`q, location, point, radius, sort=distance, key` sent to `{url}/3.0/items`.
Parameter order of the Python method: `(query, point, location, radius)`. -/
def DGisSearchAPI.place_request (api : DGisSearchAPI)
    (query point location : String) (radius : Int) : HttpRequest :=
  ⟨api.url ++ "/3.0/items",
   build_params
     [("q", some (.s query)), ("location", some (.s location)),
      ("point", some (.s point)), ("radius", some (.i radius)),
      ("sort", some (.s "distance")), ("key", some (.s api.api_key))]⟩

/-- `DGisSearchAPI.geocoder_api` request construction: params `q, location,
key` (location optional, `None` filtered) sent to `{url}/3.0/items/geocode`. -/
def DGisSearchAPI.geocoder_request (api : DGisSearchAPI)
    (query : String) (location : Option String) : HttpRequest :=
  ⟨api.url ++ "/3.0/items/geocode",
   build_params
     [("q", some (.s query)), ("location", location.map .s),
      ("key", some (.s api.api_key))]⟩

/-- `DGisSearchAPI.suggest_api` request construction: params `q, location,
key` sent to `{url}/3.0/suggests`. -/
def DGisSearchAPI.suggest_request (api : DGisSearchAPI)
    (query : String) (location : Option String) : HttpRequest :=
  ⟨api.url ++ "/3.0/suggests",
   build_params
     [("q", some (.s query)), ("location", location.map .s),
      ("key", some (.s api.api_key))]⟩

/-- `DGisSearchAPI.categories_api` request construction: params `q, region_id,
key` sent to `{url}/2.0/catalog/rubric/search`. -/
def DGisSearchAPI.categories_request (api : DGisSearchAPI)
    (query : String) (region_id : Int) : HttpRequest :=
  ⟨api.url ++ "/2.0/catalog/rubric/search",
   build_params
     [("q", some (.s query)), ("region_id", some (.i region_id)),
      ("key", some (.s api.api_key))]⟩

/-- `DGisSearchAPI.regions_api` request construction: params `q, key` sent to
`{url}/2.0/region/search`. -/
def DGisSearchAPI.regions_request (api : DGisSearchAPI)
    (query : String) : HttpRequest :=
  ⟨api.url ++ "/2.0/region/search",
   build_params [("q", some (.s query)), ("key", some (.s api.api_key))]⟩

/-- `DGisSearchAPI.markers_api` request construction: params `q, location,
key` sent to `{url}/3.0/markers`. -/
def DGisSearchAPI.markers_request (api : DGisSearchAPI)
    (query : String) (location : Option String) : HttpRequest :=
  ⟨api.url ++ "/3.0/markers",
   build_params
     [("q", some (.s query)), ("location", location.map .s),
      ("key", some (.s api.api_key))]⟩

/-- One client call with its capability-specific arguments; field order within
each constructor follows the Python method signature. -/
inductive CapCall where
  | place (query point location : String) (radius : Int)
  | geocoder (query : String) (location : Option String)
  | suggest (query : String) (location : Option String)
  | categories (query : String) (region_id : Int)
  | regions (query : String)
  | markers (query : String) (location : Option String)
deriving DecidableEq, Repr

/-- Dispatch a call to the capability's request builder. -/
def capRequest (api : DGisSearchAPI) : CapCall → HttpRequest
  | .place query point location radius => api.place_request query point location radius
  | .geocoder query location => api.geocoder_request query location
  | .suggest query location => api.suggest_request query location
  | .categories query region_id => api.categories_request query region_id
  | .regions query => api.regions_request query
  | .markers query location => api.markers_request query location

/-- The capability name as it appears in the client's log messages
(`"Place API request: ..."`, `"Geocoder API error: ..."`, ...). -/
def capName : CapCall → String
  | .place _ _ _ _ => "Place"
  | .geocoder _ _ => "Geocoder"
  | .suggest _ _ => "Suggest"
  | .categories _ _ => "Categories"
  | .regions _ => "Regions"
  | .markers _ _ => "Markers"

/-- Python's rendering of an optional string (`str(None)` is `"None"`). -/
def pyShow : Option String → String
  | some s => s
  | none => "None"

/-- The `logger.info` line each client operation emits before the request,
following the source f-strings (quote characters around values elided). -/
def capInfoLog : CapCall → String
  | .place query point location radius =>
      "Place API request: query=" ++ query ++ ", location=" ++ location ++
        ", point=" ++ point ++ ", radius=" ++ toString radius
  | .geocoder query location =>
      "Geocoder API request: query=" ++ query ++ ", location=" ++ pyShow location
  | .suggest query location =>
      "Suggest API request: query=" ++ query ++ ", location=" ++ pyShow location
  | .categories query region_id =>
      "Categories API request: query=" ++ query ++ ", region_id=" ++ toString region_id
  | .regions query =>
      "Regions API request: query=" ++ query
  | .markers query location =>
      "Markers API request: query=" ++ query ++ ", location=" ++ pyShow location

/-- `httpx.Response.is_success`, the condition `raise_for_status` demands:
status in 200..299. -/
def is_success (status : Nat) : Bool :=
  200 ≤ status && status < 300

/-- The raw HTTP response handed back by `httpx.get`. -/
structure HttpResponse where
  status : Nat
  body : String
deriving DecidableEq, Repr

/-- Outcome of the single `httpx.get` call: either a response arrived or the
transport failed (connection error, timeout — an `httpx.TransportError`). -/
inductive HttpOutcome where
  | response : HttpResponse → HttpOutcome
  | transportFailure : String → HttpOutcome
deriving DecidableEq, Repr

/-- The `httpx.HTTPError` values the client can raise: `HTTPStatusError` from
`raise_for_status` (carrying the status and the request URL) or a transport
error. -/
inductive HTTPError where
  | statusError : Nat → String → HTTPError
  | transportError : String → HTTPError
deriving DecidableEq, Repr

/-- Rendering `str(e)` for an `httpx.HTTPError`; the exact httpx wording is
abstracted, keeping the status/URL (resp. message) content. -/
def HTTPError.toStr : HTTPError → String
  | .statusError status url => "HTTP status " ++ toString status ++ " for url " ++ url
  | .transportError msg => msg

/-- Observable outcome of running one client operation: the outbound requests
attempted, the log lines emitted, and the returned JSON body (the opaque
parsed value is carried as the body string) or the raised error. -/
structure RunResult where
  requests : List HttpRequest
  logs : List String
  result : Except HTTPError String
deriving Repr

/-- Run one client operation against a given HTTP outcome.  Every capability
method has the same shape in the source: log the request intent, build the
params, issue exactly one `httpx.get`, `raise_for_status`, log the status and
return `response.json()` on success; on `httpx.HTTPError` log
`"{Name} API error: {str(e)}"` and re-raise the error unchanged. -/
def capRun (api : DGisSearchAPI) (c : CapCall) (http : HttpOutcome) : RunResult :=
  let req := capRequest api c
  match http with
  | .transportFailure msg =>
      ⟨[req],
       [capInfoLog c, capName c ++ " API error: " ++ HTTPError.toStr (.transportError msg)],
       .error (.transportError msg)⟩
  | .response resp =>
      if is_success resp.status then
        ⟨[req],
         [capInfoLog c, capName c ++ " API response status: " ++ toString resp.status],
         .ok resp.body⟩
      else
        ⟨[req],
         [capInfoLog c, capName c ++ " API error: " ++ HTTPError.toStr (.statusError resp.status req.url)],
         .error (.statusError resp.status req.url)⟩

/-- One client method call viewed as a state transition on the client object.
The source methods only read `self.api_key` and `self.url`; no attribute is
assigned outside `__init__`, so the post-state is the object unchanged. -/
def capStep (api : DGisSearchAPI) (c : CapCall) : HttpRequest × DGisSearchAPI :=
  (capRequest api c, api)

/-- `place_tool(query, location, point, radius)` delegates positionally:
`dgis_search_api.place_api(query, location, point, radius)`, against the
client signature `place_api(query, point, location, radius)` — so the
facade's `location` lands in the client's `point` slot and vice versa. -/
def place_tool_request (api : DGisSearchAPI)
    (query location point : String) (radius : Int) : HttpRequest :=
  api.place_request query location point radius

/-- `geocoder_tool(query, location='')` delegates
`dgis_search_api.geocoder_api(query, location)`: the facade's `location` is a
plain string (default empty), so the client receives `some location`, never
`None`. -/
def geocoder_tool_request (api : DGisSearchAPI)
    (query location : String) : HttpRequest :=
  api.geocoder_request query (some location)

/-- Full run of `geocoder_tool`: log the MCP request line, delegate to the
client, log the MCP outcome, and propagate the client's result or error
unchanged.  No validation model is consulted anywhere on this path. -/
def geocoder_tool_run (api : DGisSearchAPI) (query location : String)
    (http : HttpOutcome) : RunResult :=
  let inner := capRun api (.geocoder query (some location)) http
  ⟨inner.requests,
   ("MCP Geocoder API request: query=" ++ query ++ ", location=" ++ location)
     :: inner.logs ++
     [match inner.result with
      | .ok _ => "MCP Geocoder API response received successfully"
      | .error e => "MCP Geocoder API error: " ++ e.toStr],
   inner.result⟩

/-- A value passed as a keyword argument to `GeocoderParams(...)`: a Python
string or a float (the float carried by its default decimal string form). -/
inductive PyArg where
  | str : String → PyArg
  | num : String → PyArg
deriving DecidableEq, Repr

/-- `GeocoderParams` (src/models.py): `query: str = ""`,
`lat: float | None = None`, `lon: float | None = None`,
`fields: str = "items.point"`.  Coordinates are carried by their default
decimal string form, since the model logic inspects only their presence. -/
structure GeocoderParams where
  query : String
  lat : Option String
  lon : Option String
  fields : String
deriving DecidableEq, Repr

/-- The computed `location` field: `f"{self.lat},{self.lon}"` when both
coordinates are present, `None` otherwise. -/
def GeocoderParams.location (p : GeocoderParams) : Option String :=
  match p.lat, p.lon with
  | some la, some lo => some (la ++ "," ++ lo)
  | _, _ => none

/-- Error message of the partial-coordinates check. -/
def together_msg : String :=
  "Both \x27lat\x27 and \x27lon\x27 must be provided together"

/-- Error message of the at-least-one check. -/
def at_least_one_msg : String :=
  "At least one of \x27query\x27 or both \x27lat\x27 and \x27lon\x27 must be provided"

/-- The `model_validator(mode=after)` `validate_at_least_one_param`: first
reject a partial coordinate pair, then require a non-empty query or a full
coordinate pair (`bool(self.query)` is `query ≠ ""`). -/
def GeocoderParams.validate_at_least_one_param
    (p : GeocoderParams) : Except String GeocoderParams :=
  if p.lat.isNone != p.lon.isNone then
    .error together_msg
  else
    let has_query := p.query != ""
    let has_location := p.lat.isSome && p.lon.isSome
    if !has_query && !has_location then
      .error at_least_one_msg
    else
      .ok p

/-- The field names `GeocoderParams` accepts; `Config.extra = "forbid"`
rejects everything else at construction time. -/
def allowed_fields : List String := ["query", "lat", "lon", "fields"]

/-- Look up a keyword argument by name (Python kwargs have unique keys;
`find?` takes the first binding). -/
def lookupArg (kwargs : List (String × PyArg)) (k : String) : Option PyArg :=
  (kwargs.find? (fun kv => kv.1 == k)).map (fun kv => kv.2)

/-- Extract a string-typed field, with its default when absent. -/
def getStr (kwargs : List (String × PyArg)) (k dflt : String) :
    Except String String :=
  match lookupArg kwargs k with
  | none => .ok dflt
  | some (.str s) => .ok s
  | some (.num _) => .error ("Input should be a valid string: " ++ k)

/-- Extract an optional float-typed field (`None` when absent). -/
def getNum (kwargs : List (String × PyArg)) (k : String) :
    Except String (Option String) :=
  match lookupArg kwargs k with
  | none => .ok none
  | some (.num x) => .ok (some x)
  | some (.str _) => .error ("Input should be a valid number: " ++ k)

/-- Pydantic construction of `GeocoderParams` from keyword arguments: reject
unknown field names (`extra = "forbid"`), parse each declared field with its
default, then run the after-validator. -/
def GeocoderParams.construct (kwargs : List (String × PyArg)) :
    Except String GeocoderParams :=
  match kwargs.find? (fun kv => decide (kv.1 ∉ allowed_fields)) with
  | some kv => .error ("Extra inputs are not permitted: " ++ kv.1)
  | none =>
      match getStr kwargs "query" "", getNum kwargs "lat", getNum kwargs "lon",
            getStr kwargs "fields" "items.point" with
      | .ok query, .ok lat, .ok lon, .ok fields =>
          GeocoderParams.validate_at_least_one_param ⟨query, lat, lon, fields⟩
      | .error e, _, _, _ => .error e
      | _, .error e, _, _ => .error e
      | _, _, .error e, _ => .error e
      | _, _, _, .error e => .error e

/-- Sample credentials standing in for the environment-sourced settings. -/
def sample_api : DGisSearchAPI :=
  ⟨"demo-key", "https://catalog.api.2gis.com"⟩

/-- Claim C5: whenever exactly one of the two coordinates is present, the
after-validator fails with the "together" error regardless of the query
value, and construction through the pydantic entry point with only `lat`
(resp. only `lon`) supplied fails the same way — this check runs before the
at-least-one check. -/
theorem geocoder_together_error (p : GeocoderParams)
    (h : p.lat.isSome ≠ p.lon.isSome) (query la fv : String) :
    p.validate_at_least_one_param = .error together_msg ∧
    GeocoderParams.construct
      [("query", .str query), ("lat", .num la), ("fields", .str fv)] =
      .error together_msg ∧
    GeocoderParams.construct
      [("query", .str query), ("lon", .num la), ("fields", .str fv)] =
      .error together_msg := by
  refine ⟨?_, rfl, rfl⟩
  obtain ⟨q, ol, oo, f⟩ := p
  cases ol <;> cases oo <;>
    simp_all [GeocoderParams.validate_at_least_one_param]

/-- Witness for C5 at a concrete input: `lat` given, `lon` absent, non-empty
query — the "together" error wins. -/
theorem geocoder_together_error_witness :
    (GeocoderParams.mk "Moscow" (some "55.751244") none "items.point").lat.isSome ≠
      (GeocoderParams.mk "Moscow" (some "55.751244") none "items.point").lon.isSome ∧
    ((GeocoderParams.mk "Moscow" (some "55.751244") none "items.point").validate_at_least_one_param
        = .error together_msg ∧
     GeocoderParams.construct
       [("query", .str "Moscow"), ("lat", .num "55.751244"), ("fields", .str "items.point")] =
       .error together_msg ∧
     GeocoderParams.construct
       [("query", .str "Moscow"), ("lon", .num "55.751244"), ("fields", .str "items.point")] =
       .error together_msg) :=
  ⟨by decide,
   geocoder_together_error
     (GeocoderParams.mk "Moscow" (some "55.751244") none "items.point")
     (by decide) "Moscow" "55.751244" "items.point"⟩

/-- Claim C6: with an empty (or defaulted) query and neither coordinate
present, validation fails with the "at least one" error; construction with no
arguments at all, and with only an empty query, fails the same way. -/
theorem geocoder_at_least_one_error (p : GeocoderParams)
    (hq : p.query = "") (hla : p.lat = none) (hlo : p.lon = none) :
    p.validate_at_least_one_param = .error at_least_one_msg ∧
    GeocoderParams.construct [] = .error at_least_one_msg ∧
    GeocoderParams.construct [("query", .str "")] = .error at_least_one_msg := by
  obtain ⟨q, ol, oo, f⟩ := p
  simp only at hq hla hlo
  subst hq hla hlo
  exact ⟨rfl, rfl, rfl⟩

/-- Witness for C6: the all-defaults instance fails with the "at least one"
error. -/
theorem geocoder_at_least_one_error_witness :
    (GeocoderParams.mk "" none none "items.point").query = "" ∧
    (GeocoderParams.mk "" none none "items.point").lat = none ∧
    (GeocoderParams.mk "" none none "items.point").lon = none ∧
    ((GeocoderParams.mk "" none none "items.point").validate_at_least_one_param
        = .error at_least_one_msg ∧
     GeocoderParams.construct [] = .error at_least_one_msg ∧
     GeocoderParams.construct [("query", .str "")] = .error at_least_one_msg) :=
  ⟨rfl, rfl, rfl,
   geocoder_at_least_one_error (GeocoderParams.mk "" none none "items.point") rfl rfl rfl⟩

/-- Claim C7: when both coordinates are present, the derived `location` is
exactly the concatenation of the coordinates' decimal forms around a comma;
when either is absent, `location` is `None`. -/
theorem geocoder_location_concat (p : GeocoderParams) :
    (∀ la lo, p.lat = some la → p.lon = some lo →
      p.location = some (la ++ "," ++ lo)) ∧
    (p.lat = none ∨ p.lon = none → p.location = none) := by
  obtain ⟨q, ol, oo, f⟩ := p
  cases ol <;> cases oo <;> simp [GeocoderParams.location]

/-- Witness for C7 at the spec's scenario coordinates. -/
theorem geocoder_location_concat_witness :
    (GeocoderParams.mk "" (some "55.751244") (some "37.618423") "items.point").location
      = some "55.751244,37.618423" :=
  (geocoder_location_concat
     (GeocoderParams.mk "" (some "55.751244") (some "37.618423") "items.point")).1
    "55.751244" "37.618423" rfl rfl

/-- Claim C8: any keyword argument whose name is outside the declared field
set makes construction fail with the extra-inputs error (unknown fields are
rejected, not ignored or forwarded). -/
theorem geocoder_extra_forbidden (kwargs : List (String × PyArg))
    (k : String) (v : PyArg) (hk : k ∉ allowed_fields) (hmem : (k, v) ∈ kwargs) :
    ∃ bad, bad ∉ allowed_fields ∧
      GeocoderParams.construct kwargs =
        .error ("Extra inputs are not permitted: " ++ bad) := by
  unfold GeocoderParams.construct
  cases hfind : kwargs.find? (fun kv => decide (kv.1 ∉ allowed_fields)) with
  | none =>
      exfalso
      have hall := List.find?_eq_none.mp hfind (k, v) hmem
      simp at hall
      exact hk hall
  | some kv =>
      have hb := List.find?_some hfind
      simp at hb
      exact ⟨kv.1, hb, rfl⟩

/-- Witness for C8: the spec-level field name `latitude` is itself unknown to
the model (which declares `lat`), so it is rejected. -/
theorem geocoder_extra_forbidden_witness :
    "latitude" ∉ allowed_fields ∧
    ("latitude", PyArg.num "55.751244") ∈ [("latitude", PyArg.num "55.751244")] ∧
    ∃ bad, bad ∉ allowed_fields ∧
      GeocoderParams.construct [("latitude", PyArg.num "55.751244")] =
        .error ("Extra inputs are not permitted: " ++ bad) :=
  ⟨by decide, by decide,
   geocoder_extra_forbidden [("latitude", PyArg.num "55.751244")]
     "latitude" (PyArg.num "55.751244") (by decide) (by decide)⟩

/-- Validator success yields the validated instance itself and forces the
model invariant on it. -/
theorem validate_ok_shape (q p : GeocoderParams)
    (h : q.validate_at_least_one_param = .ok p) :
    (p.lat.isSome ↔ p.lon.isSome) ∧
    (p.location.isSome ↔ (p.lat.isSome ∧ p.lon.isSome)) ∧
    (p.query ≠ "" ∨ (p.lat.isSome ∧ p.lon.isSome)) := by
  unfold GeocoderParams.validate_at_least_one_param at h
  split at h
  · exact Except.noConfusion h
  · dsimp only at h
    split at h
    · exact Except.noConfusion h
    · next hne hok =>
        obtain rfl : q = p := by injection h
        obtain ⟨qq, ol, oo, f⟩ := q
        cases ol <;> cases oo <;>
          by_cases hq : qq = "" <;>
          simp_all [GeocoderParams.location]

/-- Claim C10: every successfully constructed `GeocoderParams` instance
satisfies the invariant — coordinates present together or absent together,
`location` present exactly when both are, and a non-empty query or a full
coordinate pair.  Construction is the only way to obtain an instance (no
repository operation mutates one). -/
theorem geocoder_construct_invariant (kwargs : List (String × PyArg))
    (p : GeocoderParams) (h : GeocoderParams.construct kwargs = .ok p) :
    (p.lat.isSome ↔ p.lon.isSome) ∧
    (p.location.isSome ↔ (p.lat.isSome ∧ p.lon.isSome)) ∧
    (p.query ≠ "" ∨ (p.lat.isSome ∧ p.lon.isSome)) := by
  unfold GeocoderParams.construct at h
  split at h
  · exact Except.noConfusion h
  · split at h
    · exact validate_ok_shape _ _ h
    all_goals exact Except.noConfusion h

/-- Witness for C10: the query-only construction succeeds and satisfies the
invariant. -/
theorem geocoder_construct_invariant_witness :
    GeocoderParams.construct [("query", PyArg.str "Moscow")] =
      .ok (GeocoderParams.mk "Moscow" none none "items.point") ∧
    (((GeocoderParams.mk "Moscow" none none "items.point").lat.isSome ↔
        (GeocoderParams.mk "Moscow" none none "items.point").lon.isSome) ∧
     ((GeocoderParams.mk "Moscow" none none "items.point").location.isSome ↔
        ((GeocoderParams.mk "Moscow" none none "items.point").lat.isSome ∧
         (GeocoderParams.mk "Moscow" none none "items.point").lon.isSome)) ∧
     ((GeocoderParams.mk "Moscow" none none "items.point").query ≠ "" ∨
        ((GeocoderParams.mk "Moscow" none none "items.point").lat.isSome ∧
         (GeocoderParams.mk "Moscow" none none "items.point").lon.isSome))) :=
  ⟨rfl,
   geocoder_construct_invariant [("query", PyArg.str "Moscow")]
     (GeocoderParams.mk "Moscow" none none "items.point") rfl⟩

/-- Claim C9: running the same capability call twice in sequence, threading
the client object through, yields byte-identical requests (in particular
byte-identical parameter sets) and leaves the client state exactly as it
started — parameter construction is a deterministic function of the call
arguments and the static credentials, with no hidden accumulating state. -/
theorem capability_calls_stateless (api : DGisSearchAPI) (c : CapCall) :
    (capStep api c).1 = (capStep (capStep api c).2 c).1 ∧
    (capStep (capStep api c).2 c).2 = api ∧
    (capStep api c).1.params = (capStep (capStep api c).2 c).1.params :=
  ⟨rfl, rfl, rfl⟩

/-- Failure behaviour demanded of a capability run: the error result carries
the status and request URL, exactly one request is attempted, the error log
names the capability, the result is independent of the response body, and a
transport failure propagates as-is after the single attempt. -/
def upstream_failure_spec (api : DGisSearchAPI) (c : CapCall)
    (status : Nat) (b1 b2 : String) : Prop :=
  (capRun api c (.response ⟨status, b1⟩)).result =
      .error (.statusError status (capRequest api c).url) ∧
  (capRun api c (.response ⟨status, b1⟩)).requests = [capRequest api c] ∧
  (∃ s, (capName c ++ " API error: " ++ s) ∈ (capRun api c (.response ⟨status, b1⟩)).logs) ∧
  (capRun api c (.response ⟨status, b1⟩)).result =
      (capRun api c (.response ⟨status, b2⟩)).result ∧
  (∀ msg, (capRun api c (.transportFailure msg)).result = .error (.transportError msg) ∧
      (capRun api c (.transportFailure msg)).requests = [capRequest api c])

/-- Claim C4: for every capability, a non-success HTTP status or a transport
failure makes the single attempted operation raise one error that carries the
underlying cause, with the capability named in the error log, no retry, and
no dependence on (hence no parsing of) the response body. -/
theorem upstream_failure_raises (api : DGisSearchAPI) (c : CapCall)
    (status : Nat) (b1 b2 : String) (h : is_success status = false) :
    upstream_failure_spec api c status b1 b2 := by
  unfold upstream_failure_spec capRun
  simp [h]
  exact ⟨(HTTPError.statusError status (capRequest api c).url).toStr, Or.inr rfl⟩

/-- Witness for C4: the place-search capability against an HTTP 500. -/
theorem upstream_failure_raises_witness :
    is_success 500 = false ∧
    upstream_failure_spec sample_api (.place "cafe" "55.0,37.0" "56.0,38.0" 1000)
      500 "{}" "irrelevant" :=
  ⟨by decide,
   upstream_failure_raises sample_api (.place "cafe" "55.0,37.0" "56.0,38.0" 1000)
     500 "{}" "irrelevant" (by decide)⟩

/-- Claim C1 (failing behaviour): `place_tool("cafe", location="55.0,37.0",
point="56.0,38.0", radius=1000)` produces an outgoing parameter set in which
the `point` parameter holds the caller's `location` value and the `location`
parameter holds the caller's `point` value — the positional delegation to
`place_api(query, point, location, radius)` swaps the two. -/
theorem place_tool_swaps_point_location :
    (place_tool_request sample_api "cafe" "55.0,37.0" "56.0,38.0" 1000).params =
      [("q", .s "cafe"), ("location", .s "56.0,38.0"), ("point", .s "55.0,37.0"),
       ("radius", .i 1000), ("sort", .s "distance"), ("key", .s "demo-key")] ∧
    ("point", PVal.s "55.0,37.0") ∈
      (place_tool_request sample_api "cafe" "55.0,37.0" "56.0,38.0" 1000).params ∧
    ("location", PVal.s "56.0,38.0") ∈
      (place_tool_request sample_api "cafe" "55.0,37.0" "56.0,38.0" 1000).params :=
  ⟨rfl, by decide, by decide⟩

/-- Claim C2 (failing behaviour): invoking the geocoder tool with an empty
query and the defaulted empty location performs the outbound request anyway —
one HTTP GET with `q=` and `location=` both empty — and returns the upstream
body; no `ValidationError` is raised, while the (unused) `GeocoderParams`
model would have rejected the same arguments. -/
theorem geocoder_tool_skips_validation :
    (geocoder_tool_run sample_api "" "" (.response ⟨200, "\x7b\x7d"⟩)).requests.length = 1 ∧
    (geocoder_tool_run sample_api "" "" (.response ⟨200, "\x7b\x7d"⟩)).result = .ok "\x7b\x7d" ∧
    ("q", PVal.s "") ∈ (geocoder_tool_request sample_api "" "").params ∧
    ("location", PVal.s "") ∈ (geocoder_tool_request sample_api "" "").params ∧
    GeocoderParams.construct [("query", PyArg.str "")] = .error at_least_one_msg :=
  ⟨rfl, rfl, by decide, by decide, rfl⟩

/-- Claim C3 (failing behaviour): with the optional location left unset, the
geocoder facade's empty-string default is forwarded and sent upstream as an
empty-string `location` parameter. -/
theorem geocoder_unset_location_sent_empty :
    ("location", PVal.s "") ∈ (geocoder_tool_request sample_api "Moscow" "").params := by
  decide

/-- Claim C3 (amended): `_build_params` keeps exactly the entries whose value
is present — a `None`-valued argument never contributes a key — and the
client-level geocode request with `location=None` contains no `location`
parameter at all; empty strings, however, are not filtered. -/
theorem build_params_omits_none (kwargs : List (String × Option PVal))
    (k : String) (v : PVal) (api : DGisSearchAPI) (query : String) :
    ((k, v) ∈ build_params kwargs ↔ (k, some v) ∈ kwargs) ∧
    (∀ w, ("location", w) ∉ (api.geocoder_request query none).params) := by
  constructor
  · simp only [build_params, List.mem_filterMap]
    constructor
    · rintro ⟨⟨x, y⟩, hmem, hmap⟩
      cases y with
      | none => exact Option.noConfusion hmap
      | some w =>
          injection hmap with h1
          injection h1 with hx hv
          subst hx
          subst hv
          exact hmem
    · intro hmem
      exact ⟨(k, some v), hmem, rfl⟩
  · intro w hw
    simp [DGisSearchAPI.geocoder_request, build_params, List.filterMap] at hw

/-- Witness for the amended C3 at concrete inputs. -/
theorem build_params_omits_none_witness :
    ((("q", PVal.s "Moscow") ∈
        build_params [("q", some (PVal.s "Moscow")), ("location", none)]) ↔
      (("q", some (PVal.s "Moscow")) ∈
        [("q", some (PVal.s "Moscow")), ("location", (none : Option PVal))])) ∧
    (∀ w, ("location", w) ∉ (sample_api.geocoder_request "Moscow" none).params) :=
  build_params_omits_none [("q", some (PVal.s "Moscow")), ("location", none)]
    "q" (PVal.s "Moscow") sample_api "Moscow"

end DGis
